import Mathlib

/-!
Verification of the KOMSI vehicle-telemetry library.

This file shallowly embeds the library's three source files:
* `komsi.rs`: the `KomsiCommandKind` enum (command-code registry), the
  command builders `build_komsi_command`, `build_komsi_command_u8`,
  `build_komsi_command_eol`;
* `vehicle.rs`: the `VehicleState` record, the field-change handlers and
  `VehicleState.compare`, the state-diff engine.

Machine integers (`u8`, `u32`) are modelled as `Nat`: the code performs no
arithmetic on field values — only equality tests and decimal formatting —
so no overflow can occur and the embedding is exact on the value ranges the
types admit. Rust's `to_string` decimal formatter is modelled by `decAscii`,
the standard divide-by-ten digit algorithm. The optional
`&dyn VehicleLogger` is modelled by an `Option Unit` capability flag, and
the sequence of messages passed to `log` is returned alongside the byte
buffer in a `CompareAcc` record (in Rust the messages go to the logger as a
side effect and only the byte buffer is returned).
-/

/-- The command-code registry: `KomsiCommandKind` from `komsi.rs`, one
constructor per protocol command identity. -/
inductive KomsiCommandKind where
  | EOL
  | Ignition
  | Engine
  | PassengerDoorsOpen
  | Indicator
  | FixingBrake
  | LightsWarning
  | LightsMain
  | LightsFrontDoor
  | LightsSecondDoor
  | LightsThirdDoor
  | LightsStopRequest
  | LightsStopBrake
  | LightsHighBeam
  | BatteryLight
  | SimulatorType
  | DoorEnable
  | A17
  | A18
  | A19
  | A20
  | A21
  | A22
  | A23
  | A24
  | A25
  | A26
  | MaxSpeed
  | RPM
  | Pressure
  | Temperature
  | Oil
  | Fuel
  | Speed
  | Water
  deriving DecidableEq, Fintype

/-- The `#[repr(u8)]` discriminant of each `KomsiCommandKind` variant, i.e.
the protocol code byte (`cmd as u8` in the Rust source). -/
def KomsiCommandKind.code : KomsiCommandKind → Nat
  | .EOL => 10
  | .Ignition => 65
  | .Engine => 66
  | .PassengerDoorsOpen => 67
  | .Indicator => 68
  | .FixingBrake => 69
  | .LightsWarning => 70
  | .LightsMain => 71
  | .LightsFrontDoor => 72
  | .LightsSecondDoor => 73
  | .LightsThirdDoor => 74
  | .LightsStopRequest => 75
  | .LightsStopBrake => 76
  | .LightsHighBeam => 77
  | .BatteryLight => 78
  | .SimulatorType => 79
  | .DoorEnable => 80
  | .A17 => 81
  | .A18 => 82
  | .A19 => 83
  | .A20 => 84
  | .A21 => 85
  | .A22 => 86
  | .A23 => 87
  | .A24 => 88
  | .A25 => 89
  | .A26 => 90
  | .MaxSpeed => 115
  | .RPM => 116
  | .Pressure => 117
  | .Temperature => 118
  | .Oil => 119
  | .Fuel => 120
  | .Speed => 121
  | .Water => 122

/-- Decimal ASCII bytes of a natural number, most significant digit first:
the model of Rust's `wert.to_string().as_bytes()`. `0` yields `[48]`. -/
def decAscii (n : Nat) : List Nat :=
  if h : n < 10 then [48 + n]
  else decAscii (n / 10) ++ [48 + n % 10]
termination_by n
decreasing_by exact Nat.div_lt_self (by omega) (by omega)

/-- `build_komsi_command` from `komsi.rs`: the code byte followed by the
decimal ASCII digits of the `u32` value. -/
def build_komsi_command (cmd : KomsiCommandKind) (wert : Nat) : List Nat :=
  cmd.code :: decAscii wert

/-- `build_komsi_command_u8` from `komsi.rs`: the code byte followed by the
decimal ASCII digits of the `u8` value. -/
def build_komsi_command_u8 (cmd : KomsiCommandKind) (wert : Nat) : List Nat :=
  cmd.code :: decAscii wert

/-- `build_komsi_command_eol` from `komsi.rs`: the single EOL byte. -/
def build_komsi_command_eol : List Nat :=
  [KomsiCommandKind.EOL.code]

/-- The `VehicleState` record from `vehicle.rs`. `u8` and `u32` fields are
both modelled as `Nat` (no arithmetic is ever performed on them). -/
structure VehicleState where
  ignition : Nat
  engine : Nat
  doors : Nat
  speed : Nat
  maxspeed : Nat
  fuel : Nat
  indicator : Nat
  fixing_brake : Nat
  lights_warning : Nat
  lights_main : Nat
  lights_front_door : Nat
  lights_second_door : Nat
  lights_third_door : Nat
  lights_fourth_door : Nat
  lights_stop_request : Nat
  lights_stop_brake : Nat
  lights_high_beam : Nat
  battery_light : Nat
  gear_selector : Nat
  door_enable : Nat
  deriving DecidableEq

/-- `VehicleState::new` / `Default::default`: every field zero. -/
def VehicleState.new : VehicleState :=
  ⟨0, 0, 0, 0, 0, 0, 0, 0, 0, 0, 0, 0, 0, 0, 0, 0, 0, 0, 0, 0⟩

/-- Result of one `compare` call: the returned byte buffer plus the sequence
of messages handed to the (optional) logger, in invocation order. -/
structure CompareAcc where
  buffer : List Nat
  logs : List String
  deriving DecidableEq

/-- `VehicleState::handle_u8_field_change`: if the value changed or `force`
is set, log `"{name}: {old} -> {new} "` (when a logger is present) and
append the `u8` command for the new value. -/
def handle_u8_field_change (old_value new_value : Nat) (field_name : String)
    (command_kind : KomsiCommandKind) (logger : Option Unit) (force : Bool)
    (acc : CompareAcc) : CompareAcc :=
  if (old_value != new_value) || force then
    ⟨acc.buffer ++ build_komsi_command_u8 command_kind new_value,
     acc.logs ++ (match logger with
       | some _ =>
           [field_name ++ ": " ++ toString old_value ++ " -> " ++ toString new_value ++ " "]
       | none => [])⟩
  else acc

/-- `VehicleState::handle_u32_field_change`: identical to the `u8` handler
except for the log format (two spaces after the colon) and the builder. -/
def handle_u32_field_change (old_value new_value : Nat) (field_name : String)
    (command_kind : KomsiCommandKind) (logger : Option Unit) (force : Bool)
    (acc : CompareAcc) : CompareAcc :=
  if (old_value != new_value) || force then
    ⟨acc.buffer ++ build_komsi_command command_kind new_value,
     acc.logs ++ (match logger with
       | some _ =>
           [field_name ++ ":  " ++ toString old_value ++ " -> " ++ toString new_value ++ " "]
       | none => [])⟩
  else acc

/-- `VehicleState::compare` from `vehicle.rs`: the 18 handler calls in
source order, then the EOL byte iff the buffer is non-empty. The returned
record carries the byte buffer and the logged messages. -/
def VehicleState.compare (self : VehicleState) (new : VehicleState) (force : Bool)
    (logger : Option Unit) : CompareAcc :=
  let acc : CompareAcc := ⟨[], []⟩
  let acc := handle_u8_field_change self.ignition new.ignition "ignition"
    KomsiCommandKind.Ignition logger force acc
  let acc := handle_u8_field_change self.engine new.engine "engine"
    KomsiCommandKind.Engine logger force acc
  let acc := handle_u8_field_change self.doors new.doors "doors"
    KomsiCommandKind.PassengerDoorsOpen logger force acc
  let acc := handle_u8_field_change self.fixing_brake new.fixing_brake "fixing_brake"
    KomsiCommandKind.FixingBrake logger force acc
  let acc := handle_u8_field_change self.indicator new.indicator "indicator"
    KomsiCommandKind.Indicator logger force acc
  let acc := handle_u8_field_change self.lights_warning new.lights_warning "lights_warning"
    KomsiCommandKind.LightsWarning logger force acc
  let acc := handle_u8_field_change self.lights_main new.lights_main "lights_main"
    KomsiCommandKind.LightsMain logger force acc
  let acc := handle_u8_field_change self.lights_stop_request new.lights_stop_request
    "lights_stop_request" KomsiCommandKind.LightsStopRequest logger force acc
  let acc := handle_u8_field_change self.lights_stop_brake new.lights_stop_brake
    "lights_stop_brake" KomsiCommandKind.LightsStopBrake logger force acc
  let acc := handle_u8_field_change self.lights_front_door new.lights_front_door
    "lights_front_door" KomsiCommandKind.LightsFrontDoor logger force acc
  let acc := handle_u8_field_change self.lights_second_door new.lights_second_door
    "lights_second_door" KomsiCommandKind.LightsSecondDoor logger force acc
  let acc := handle_u8_field_change self.lights_third_door new.lights_third_door
    "lights_third_door" KomsiCommandKind.LightsThirdDoor logger force acc
  let acc := handle_u8_field_change self.lights_high_beam new.lights_high_beam
    "lights_high_beam" KomsiCommandKind.LightsHighBeam logger force acc
  let acc := handle_u32_field_change self.fuel new.fuel "fuel"
    KomsiCommandKind.Fuel logger force acc
  let acc := handle_u32_field_change self.speed new.speed "speed"
    KomsiCommandKind.Speed logger force acc
  let acc := handle_u32_field_change self.maxspeed new.maxspeed "maxspeed"
    KomsiCommandKind.MaxSpeed logger force acc
  let acc := handle_u8_field_change self.battery_light new.battery_light "battery_light"
    KomsiCommandKind.BatteryLight logger force acc
  let acc := handle_u8_field_change self.door_enable new.door_enable "door_enable"
    KomsiCommandKind.DoorEnable logger force acc
  if acc.buffer.length > 0 then ⟨acc.buffer ++ build_komsi_command_eol, acc.logs⟩
  else acc

/-- Descriptor of one tracked field: its log name, its command kind, its
accessor, and whether it goes through the `u32` handler. -/
structure FieldSpec where
  name : String
  kind : KomsiCommandKind
  get : VehicleState → Nat
  wide : Bool

/-- The 18 tracked fields in the exact order `compare` processes them (the
canonical field order). -/
def trackedFields : List FieldSpec :=
  [⟨"ignition", .Ignition, fun s => s.ignition, false⟩,
   ⟨"engine", .Engine, fun s => s.engine, false⟩,
   ⟨"doors", .PassengerDoorsOpen, fun s => s.doors, false⟩,
   ⟨"fixing_brake", .FixingBrake, fun s => s.fixing_brake, false⟩,
   ⟨"indicator", .Indicator, fun s => s.indicator, false⟩,
   ⟨"lights_warning", .LightsWarning, fun s => s.lights_warning, false⟩,
   ⟨"lights_main", .LightsMain, fun s => s.lights_main, false⟩,
   ⟨"lights_stop_request", .LightsStopRequest, fun s => s.lights_stop_request, false⟩,
   ⟨"lights_stop_brake", .LightsStopBrake, fun s => s.lights_stop_brake, false⟩,
   ⟨"lights_front_door", .LightsFrontDoor, fun s => s.lights_front_door, false⟩,
   ⟨"lights_second_door", .LightsSecondDoor, fun s => s.lights_second_door, false⟩,
   ⟨"lights_third_door", .LightsThirdDoor, fun s => s.lights_third_door, false⟩,
   ⟨"lights_high_beam", .LightsHighBeam, fun s => s.lights_high_beam, false⟩,
   ⟨"fuel", .Fuel, fun s => s.fuel, true⟩,
   ⟨"speed", .Speed, fun s => s.speed, true⟩,
   ⟨"maxspeed", .MaxSpeed, fun s => s.maxspeed, true⟩,
   ⟨"battery_light", .BatteryLight, fun s => s.battery_light, false⟩,
   ⟨"door_enable", .DoorEnable, fun s => s.door_enable, false⟩]

/-- One step of the diff pass, dispatching a field descriptor to the
handler `compare` uses for it. -/
def fieldStep (a b : VehicleState) (logger : Option Unit) (force : Bool)
    (acc : CompareAcc) (f : FieldSpec) : CompareAcc :=
  if f.wide then
    handle_u32_field_change (f.get a) (f.get b) f.name f.kind logger force acc
  else
    handle_u8_field_change (f.get a) (f.get b) f.name f.kind logger force acc

/-- Serialized command bytes for one field, taking the value from the
`after` snapshot. -/
def cmdOf (b : VehicleState) (f : FieldSpec) : List Nat :=
  f.kind.code :: decAscii (f.get b)

/-- The log message the handler emits for field `f` when comparing `a` to
`b` (the `u32` handler prints two spaces after the colon). -/
def msgFor (a b : VehicleState) (f : FieldSpec) : String :=
  f.name ++ (if f.wide then ":  " else ": ") ++ toString (f.get a) ++ " -> " ++
    toString (f.get b) ++ " "

/-- Zero or one log message, depending on logger presence. -/
def optLog (logger : Option Unit) (a b : VehicleState) (f : FieldSpec) : List String :=
  match logger with
  | some _ => [msgFor a b f]
  | none => []

/-- Concatenated command bytes of a list of fields. -/
def commandBytes (b : VehicleState) : List FieldSpec → List Nat
  | [] => []
  | f :: fs => cmdOf b f ++ commandBytes b fs

/-- Log messages for a list of fields (empty when no logger is present). -/
def optLogs (logger : Option Unit) (a b : VehicleState) : List FieldSpec → List String
  | [] => []
  | f :: fs => optLog logger a b f ++ optLogs logger a b fs

/-- The fields the diff pass emits: those whose value differs between the
two snapshots, or all of them under `force`; canonical order throughout. -/
def emittedFields (a b : VehicleState) (force : Bool) : List FieldSpec :=
  trackedFields.filter (fun f => (f.get a != f.get b) || force)

/-- The fields whose value differs between the two snapshots, in canonical
order. -/
def changedFields (a b : VehicleState) : List FieldSpec :=
  trackedFields.filter (fun f => f.get a != f.get b)

/-- Closed-form description of `compare`: the concatenated commands of the
emitted fields, the EOL byte iff at least one command was emitted, and one
log message per emitted field when a logger is present. -/
def compareSpec (a b : VehicleState) (force : Bool) (logger : Option Unit) : CompareAcc :=
  if (commandBytes b (emittedFields a b force)).length > 0 then
    ⟨commandBytes b (emittedFields a b force) ++ [10],
     optLogs logger a b (emittedFields a b force)⟩
  else
    ⟨commandBytes b (emittedFields a b force),
     optLogs logger a b (emittedFields a b force)⟩

/-- Decode a digit-byte string back to the number it denotes. -/
def decodeDigits (ds : List Nat) : Nat :=
  ds.foldl (fun acc d => acc * 10 + (d - 48)) 0

/-- Whether a byte is a command-identity code byte (the two registry
ranges). -/
def isCodeByte (x : Nat) : Bool :=
  decide (65 ≤ x ∧ x ≤ 90) || decide (115 ≤ x ∧ x ≤ 122)

/-- Overwrite the two state-only fields (fourth-door light, gear
selector). -/
def setUntracked (s : VehicleState) (fourth gear : Nat) : VehicleState :=
  { s with lights_fourth_door := fourth, gear_selector := gear }

example : build_komsi_command .Speed 100 = [121, 49, 48, 48] := by
  simp [build_komsi_command, decAscii, KomsiCommandKind.code]
example : build_komsi_command_u8 .Ignition 1 = [65, 49] := by
  simp [build_komsi_command_u8, decAscii, KomsiCommandKind.code]
example : build_komsi_command_eol = [10] := by decide

/-! ### Bridge from the unrolled `compare` to its closed form -/

/-- The step function applied to a field descriptor is the matching handler,
in closed form. -/
lemma fieldStep_eq (a b : VehicleState) (logger : Option Unit) (force : Bool)
    (acc : CompareAcc) (f : FieldSpec) :
    fieldStep a b logger force acc f =
      if (f.get a != f.get b) || force then
        ⟨acc.buffer ++ cmdOf b f, acc.logs ++ optLog logger a b f⟩
      else acc := by
  obtain ⟨name, kind, get, wide⟩ := f
  cases wide <;> cases logger <;>
    simp [fieldStep, handle_u8_field_change, handle_u32_field_change, cmdOf, optLog,
      msgFor, build_komsi_command, build_komsi_command_u8]

/-- Folding the step function over any field list appends the commands and
log messages of the emitted subset. -/
lemma foldl_fieldStep (a b : VehicleState) (logger : Option Unit) (force : Bool) :
    ∀ (fs : List FieldSpec) (acc : CompareAcc),
      fs.foldl (fieldStep a b logger force) acc =
        ⟨acc.buffer ++ commandBytes b (fs.filter (fun f => (f.get a != f.get b) || force)),
         acc.logs ++ optLogs logger a b (fs.filter (fun f => (f.get a != f.get b) || force))⟩
  | [], acc => by simp [commandBytes, optLogs]
  | f :: fs, acc => by
    rw [List.foldl_cons, fieldStep_eq, List.filter_cons]
    by_cases hc : ((f.get a != f.get b) || force) = true
    · rw [if_pos hc, if_pos hc, foldl_fieldStep a b logger force fs]
      simp [commandBytes, optLogs, List.append_assoc]
    · rw [if_neg hc, if_neg hc, foldl_fieldStep a b logger force fs]

/-- `compare` is the fold of the step function over the canonical field
list, followed by the EOL framing step. -/
lemma compare_eq_foldl (a b : VehicleState) (force : Bool) (logger : Option Unit) :
    VehicleState.compare a b force logger =
      (fun acc : CompareAcc =>
        if acc.buffer.length > 0 then ⟨acc.buffer ++ build_komsi_command_eol, acc.logs⟩
        else acc)
      (trackedFields.foldl (fieldStep a b logger force) ⟨[], []⟩) := rfl

/-- `compare` equals its closed-form description `compareSpec`. -/
lemma compare_eq_spec (a b : VehicleState) (force : Bool) (logger : Option Unit) :
    VehicleState.compare a b force logger = compareSpec a b force logger := by
  rw [compare_eq_foldl, foldl_fieldStep]
  simp only [List.nil_append]
  rfl

/-! ### Properties of the decimal ASCII encoder -/

/-- A decimal rendering is never empty. -/
lemma decAscii_ne_nil (n : Nat) : decAscii n ≠ [] := by
  rw [decAscii]
  split
  · simp
  · simp

/-- Every byte of a decimal rendering is an ASCII digit. -/
lemma decAscii_digit (n : Nat) : ∀ d ∈ decAscii n, 48 ≤ d ∧ d ≤ 57 := by
  induction n using Nat.strong_induction_on with
  | _ n ih =>
    rw [decAscii]
    split
    · next h =>
      intro d hd
      simp only [List.mem_singleton] at hd
      omega
    · next h =>
      intro d hd
      rw [List.mem_append] at hd
      rcases hd with hd | hd
      · exact ih (n / 10) (Nat.div_lt_self (by omega) (by omega)) d hd
      · simp only [List.mem_singleton] at hd
        have : n % 10 < 10 := Nat.mod_lt _ (by omega)
        omega

/-- Reading the digit bytes back as a decimal number recovers the input:
`decAscii n` is a correct decimal representation of `n`. -/
lemma decodeDigits_decAscii (n : Nat) : decodeDigits (decAscii n) = n := by
  induction n using Nat.strong_induction_on with
  | _ n ih =>
    rw [decAscii]
    split
    · next h =>
      simp [decodeDigits]
    · next h =>
      have hrec := ih (n / 10) (Nat.div_lt_self (by omega) (by omega))
      simp only [decodeDigits, List.foldl_append, List.foldl_cons, List.foldl_nil] at hrec ⊢
      rw [hrec]
      have : n % 10 < 10 := Nat.mod_lt _ (by omega)
      omega

/-- The value zero renders as the single digit byte 48. -/
lemma decAscii_zero : decAscii 0 = [48] := by
  rw [decAscii]
  simp

/-- A nonzero value never renders with a leading zero digit. -/
lemma decAscii_head_ne_48 : ∀ n : Nat, n ≠ 0 → (decAscii n).head? ≠ some 48 := by
  intro n
  induction n using Nat.strong_induction_on with
  | _ n ih =>
    intro h
    rw [decAscii]
    split
    · next h10 =>
      simp only [List.head?_cons, ne_eq, Option.some.injEq]
      omega
    · next h10 =>
      have hne := decAscii_ne_nil (n / 10)
      obtain ⟨d, ds, hds⟩ := List.exists_cons_of_ne_nil hne
      rw [hds, List.cons_append, List.head?_cons]
      have hlt : n / 10 < n := Nat.div_lt_self (by omega) (by omega)
      have hz : n / 10 ≠ 0 := by
        have hpos : 0 < n / 10 := Nat.div_pos (by omega) (by omega)
        omega
      have htail := ih (n / 10) hlt hz
      rw [hds, List.head?_cons] at htail
      exact htail

/-! ### Helper lemmas about the closed form -/

/-- The command bytes of a field list are empty exactly when the list is. -/
lemma commandBytes_eq_nil_iff (b : VehicleState) (fs : List FieldSpec) :
    commandBytes b fs = [] ↔ fs = [] := by
  cases fs with
  | nil => simp [commandBytes]
  | cons f fs => simp [commandBytes, cmdOf]

/-- Without `force`, the emitted fields are exactly the changed fields. -/
lemma emittedFields_false (a b : VehicleState) :
    emittedFields a b false = changedFields a b := by
  simp [emittedFields, changedFields]

/-- Under `force`, every tracked field is emitted. -/
lemma emittedFields_true (a b : VehicleState) :
    emittedFields a b true = trackedFields := by
  simp [emittedFields]

/-- Comparing a snapshot with itself changes no field. -/
lemma changedFields_self (s : VehicleState) : changedFields s s = [] := by
  simp [changedFields]

/-- The returned byte buffer in closed form: the emitted fields' commands,
then the terminator iff at least one field was emitted. -/
lemma compare_buffer_eq (a b : VehicleState) (force : Bool) (logger : Option Unit) :
    (VehicleState.compare a b force logger).buffer =
      commandBytes b (emittedFields a b force) ++
        (if (emittedFields a b force).isEmpty then [] else [10]) := by
  rw [compare_eq_spec]
  unfold compareSpec
  rcases he : emittedFields a b force with _ | ⟨f, fs⟩
  · simp [commandBytes]
  · have hc : commandBytes b (f :: fs) ≠ [] := by
      intro hn
      exact List.cons_ne_nil f fs ((commandBytes_eq_nil_iff b _).mp hn)
    have hl : (commandBytes b (f :: fs)).length > 0 := List.length_pos.mpr hc
    simp [hl]

/-- The logged messages in closed form. -/
lemma compare_logs_eq (a b : VehicleState) (force : Bool) (logger : Option Unit) :
    (VehicleState.compare a b force logger).logs =
      optLogs logger a b (emittedFields a b force) := by
  rw [compare_eq_spec]
  unfold compareSpec
  split
  · rfl
  · rfl

/-- With a logger present, one message per field, via `msgFor`. -/
lemma optLogs_some (a b : VehicleState) (fs : List FieldSpec) :
    optLogs (some ()) a b fs = fs.map (msgFor a b) := by
  induction fs with
  | nil => rfl
  | cons f fs ih => simp [optLogs, optLog, ih]

/-- Without a logger, no messages at all. -/
lemma optLogs_none (a b : VehicleState) (fs : List FieldSpec) :
    optLogs none a b fs = [] := by
  induction fs with
  | nil => rfl
  | cons f fs ih => simp [optLogs, optLog, ih]

/-- Digit bytes are never command-code bytes. -/
lemma isCodeByte_digit (d : Nat) (h1 : 48 ≤ d) (h2 : d ≤ 57) : isCodeByte d = false := by
  simp only [isCodeByte, Bool.or_eq_false_iff, decide_eq_false_iff_not]
  omega

/-- The digits of an encoded value contribute no command-code bytes. -/
lemma decAscii_filter_code (n : Nat) : (decAscii n).filter isCodeByte = [] := by
  refine List.filter_eq_nil_iff.mpr fun d hd => ?_
  have := decAscii_digit n d hd
  simp [isCodeByte_digit d this.1 this.2]

/-- Every tracked field's command code is a code byte. -/
lemma tracked_isCodeByte : ∀ f ∈ trackedFields, isCodeByte f.kind.code = true := by
  decide

/-- Counting code bytes in a field list's command bytes counts the fields:
each serialized command contributes exactly one non-digit byte. -/
lemma filter_code_commandBytes (b : VehicleState) :
    ∀ fs : List FieldSpec, (∀ f ∈ fs, isCodeByte f.kind.code = true) →
      ((commandBytes b fs).filter isCodeByte).length = fs.length
  | [], _ => rfl
  | f :: fs, h => by
    have hf : isCodeByte f.kind.code = true := h f (List.mem_cons_self f fs)
    have hfs : ∀ g ∈ fs, isCodeByte g.kind.code = true :=
      fun g hg => h g (List.mem_cons_of_mem f hg)
    simp only [commandBytes, cmdOf, List.cons_append, List.filter_append,
      List.filter_cons, hf, if_pos, decAscii_filter_code, List.nil_append,
      List.length_cons, List.length_append]
    rw [filter_code_commandBytes b fs hfs]

/-- Membership in the emitted fields implies membership in the tracked
fields. -/
lemma mem_emittedFields (a b : VehicleState) (force : Bool) (f : FieldSpec)
    (h : f ∈ emittedFields a b force) : f ∈ trackedFields :=
  (List.mem_filter.mp h).1

/-- Membership in the changed fields implies membership in the tracked
fields. -/
lemma mem_changedFields (a b : VehicleState) (f : FieldSpec)
    (h : f ∈ changedFields a b) : f ∈ trackedFields :=
  (List.mem_filter.mp h).1

/-- Command bytes only read a field list through the getters applied to the
`after` snapshot. -/
lemma commandBytes_congr (b b' : VehicleState) :
    ∀ fs : List FieldSpec, (∀ f ∈ fs, f.get b = f.get b') →
      commandBytes b fs = commandBytes b' fs
  | [], _ => rfl
  | f :: fs, h => by
    simp only [commandBytes, cmdOf, h f (List.mem_cons_self f fs)]
    rw [commandBytes_congr b b' fs (fun g hg => h g (List.mem_cons_of_mem f hg))]

/-- Log messages only read a field list through the getters applied to the
two snapshots. -/
lemma optLogs_congr (logger : Option Unit) (a a' b b' : VehicleState) :
    ∀ fs : List FieldSpec,
      (∀ f ∈ fs, f.get a = f.get a' ∧ f.get b = f.get b') →
      optLogs logger a b fs = optLogs logger a' b' fs
  | [], _ => rfl
  | f :: fs, h => by
    have hf := h f (List.mem_cons_self f fs)
    simp only [optLogs, optLog, msgFor, hf.1, hf.2]
    rw [optLogs_congr logger a a' b b' fs
      (fun g hg => h g (List.mem_cons_of_mem f hg))]

/-- `compare` reads its two snapshots only through the 18 tracked-field
getters. -/
lemma compare_congr (a a' b b' : VehicleState) (force : Bool) (logger : Option Unit)
    (ha : ∀ f ∈ trackedFields, f.get a = f.get a')
    (hb : ∀ f ∈ trackedFields, f.get b = f.get b') :
    VehicleState.compare a b force logger = VehicleState.compare a' b' force logger := by
  rw [compare_eq_spec, compare_eq_spec]
  unfold compareSpec
  have he : emittedFields a b force = emittedFields a' b' force :=
    List.filter_congr (fun f hf => by rw [ha f hf, hb f hf])
  rw [he]
  have hcb : commandBytes b (emittedFields a' b' force) =
      commandBytes b' (emittedFields a' b' force) :=
    commandBytes_congr b b' _ (fun f hf => hb f (mem_emittedFields a' b' force f hf))
  have hol : optLogs logger a b (emittedFields a' b' force) =
      optLogs logger a' b' (emittedFields a' b' force) :=
    optLogs_congr logger a a' b b' _
      (fun f hf => ⟨ha f (mem_emittedFields a' b' force f hf),
        hb f (mem_emittedFields a' b' force f hf)⟩)
  rw [hcb, hol]

/-- Overwriting the two state-only fields leaves every tracked getter
unchanged. -/
lemma get_setUntracked (s : VehicleState) (x y : Nat) :
    ∀ f ∈ trackedFields, f.get (setUntracked s x y) = f.get s := by
  intro f hf
  fin_cases hf <;> rfl

/-! ### The claims -/

/-- C1: with `force = false` and no logger, the returned buffer is exactly
the concatenation, in canonical field order, of one serialized command per
changed field — each carrying the after-snapshot value — followed by the
single terminator byte 10 iff at least one field changed; and the buffer
contains exactly one command-code byte per changed field. -/
theorem C1_minimality (a b : VehicleState) :
    (VehicleState.compare a b false none).buffer =
      commandBytes b (changedFields a b) ++
        (if (changedFields a b).isEmpty then [] else [10])
    ∧ ((VehicleState.compare a b false none).buffer.filter isCodeByte).length =
      (changedFields a b).length := by
  have h1 : (VehicleState.compare a b false none).buffer =
      commandBytes b (changedFields a b) ++
        (if (changedFields a b).isEmpty then [] else [10]) := by
    rw [compare_buffer_eq, emittedFields_false]
  refine ⟨h1, ?_⟩
  rw [h1, List.filter_append, List.length_append,
    filter_code_commandBytes b _ (fun f hf => tracked_isCodeByte f (mem_changedFields a b f hf))]
  rcases changedFields a b with _ | ⟨f, fs⟩
  · rfl
  · simp [isCodeByte]

/-- C2: `compare(S, S, force := true)` with no logger returns the full
state: one command per tracked field in canonical order with that field's
value in `S`, then the terminator; the buffer is non-empty, its last byte
is 10, and it contains exactly 18 command-code bytes. -/
theorem C2_force_completeness (S : VehicleState) :
    (VehicleState.compare S S true none).buffer = commandBytes S trackedFields ++ [10]
    ∧ (VehicleState.compare S S true none).buffer ≠ []
    ∧ (VehicleState.compare S S true none).buffer.getLast? = some 10
    ∧ ((VehicleState.compare S S true none).buffer.filter isCodeByte).length = 18 := by
  have hb : (VehicleState.compare S S true none).buffer =
      commandBytes S trackedFields ++ [10] := by
    rw [compare_buffer_eq, emittedFields_true]
    rfl
  refine ⟨hb, ?_, ?_, ?_⟩
  · rw [hb]
    simp
  · rw [hb]
    exact List.getLast?_concat _
  · rw [hb, List.filter_append, List.length_append,
      filter_code_commandBytes S trackedFields tracked_isCodeByte]
    rfl

/-- C3: comparing a snapshot with itself without `force` returns the empty
buffer — no command bytes and no terminator byte. -/
theorem C3_no_change (S : VehicleState) :
    (VehicleState.compare S S false none).buffer = [] := by
  rw [compare_buffer_eq, emittedFields_false, changedFields_self]
  rfl

/-- C4: the returned bytes depend only on the two snapshots and the force
flag; supplying or omitting a logger never changes them (and two calls on
identical inputs trivially agree, the function being pure). -/
theorem C4_determinism (a b : VehicleState) (force : Bool) (l l' : Option Unit) :
    (VehicleState.compare a b force l).buffer =
      (VehicleState.compare a b force l').buffer := by
  rw [compare_buffer_eq, compare_buffer_eq]

/-- C5: each builder returns the code byte followed by the minimal decimal
ASCII digits of the value — all bytes in 48..57, decoding back to the
value, no leading zero for nonzero values, the single byte 48 for zero (so
a zero-valued command is exactly two bytes) — the two builders agree
everywhere on their common domain, and the terminator builder returns
exactly `[10]`. -/
theorem C5_encoder (cmd : KomsiCommandKind) (v : Nat) :
    build_komsi_command cmd v = cmd.code :: decAscii v
    ∧ build_komsi_command_u8 cmd v = cmd.code :: decAscii v
    ∧ build_komsi_command cmd v = build_komsi_command_u8 cmd v
    ∧ (∀ d ∈ decAscii v, 48 ≤ d ∧ d ≤ 57)
    ∧ decodeDigits (decAscii v) = v
    ∧ (v = 0 → build_komsi_command_u8 cmd v = [cmd.code, 48])
    ∧ (v ≠ 0 → (decAscii v).head? ≠ some 48)
    ∧ build_komsi_command_eol = [10] := by
  refine ⟨rfl, rfl, rfl, decAscii_digit v, decodeDigits_decAscii v, ?_,
    decAscii_head_ne_48 v, rfl⟩
  intro hv
  subst hv
  rw [build_komsi_command_u8, decAscii_zero]

/-- Witness for C5 at concrete inputs: value 0 with the ignition code gives
exactly `[65, 48]`, and the rendering of 7 has no leading zero. -/
theorem C5_encoder_witness :
    build_komsi_command_u8 .Ignition 0 = [65, 48]
    ∧ (decAscii 7).head? ≠ some 48 :=
  ⟨(C5_encoder .Ignition 0).2.2.2.2.2.1 rfl,
   (C5_encoder .Speed 7).2.2.2.2.2.2.1 (by decide)⟩

/-- C6: the registry maps every identity to the byte the table lists; every
non-terminator identity code lies in 65..90 or 115..122, hence never in the
digit range 48..57 and never equal to the terminator value 10. -/
theorem C6_registry :
    (∀ k : KomsiCommandKind, k ≠ .EOL →
      ((65 ≤ k.code ∧ k.code ≤ 90) ∨ (115 ≤ k.code ∧ k.code ≤ 122))
      ∧ ¬(48 ≤ k.code ∧ k.code ≤ 57)
      ∧ k.code ≠ 10)
    ∧ KomsiCommandKind.code .EOL = 10
    ∧ KomsiCommandKind.code .Ignition = 65
    ∧ KomsiCommandKind.code .Engine = 66
    ∧ KomsiCommandKind.code .PassengerDoorsOpen = 67
    ∧ KomsiCommandKind.code .Indicator = 68
    ∧ KomsiCommandKind.code .FixingBrake = 69
    ∧ KomsiCommandKind.code .LightsWarning = 70
    ∧ KomsiCommandKind.code .LightsMain = 71
    ∧ KomsiCommandKind.code .LightsFrontDoor = 72
    ∧ KomsiCommandKind.code .LightsSecondDoor = 73
    ∧ KomsiCommandKind.code .LightsThirdDoor = 74
    ∧ KomsiCommandKind.code .LightsStopRequest = 75
    ∧ KomsiCommandKind.code .LightsStopBrake = 76
    ∧ KomsiCommandKind.code .LightsHighBeam = 77
    ∧ KomsiCommandKind.code .BatteryLight = 78
    ∧ 79 ≤ KomsiCommandKind.code .DoorEnable ∧ KomsiCommandKind.code .DoorEnable ≤ 90
    ∧ KomsiCommandKind.code .MaxSpeed = 115
    ∧ KomsiCommandKind.code .Fuel = 120
    ∧ KomsiCommandKind.code .Speed = 121 := by
  decide

/-- Witness for C6 at a concrete input: the ignition code is a
boolean/status-range code, outside digits, distinct from the
terminator. -/
theorem C6_registry_witness :
    ((65 ≤ KomsiCommandKind.code .Ignition ∧ KomsiCommandKind.code .Ignition ≤ 90)
      ∨ (115 ≤ KomsiCommandKind.code .Ignition ∧ KomsiCommandKind.code .Ignition ≤ 122))
    ∧ ¬(48 ≤ KomsiCommandKind.code .Ignition ∧ KomsiCommandKind.code .Ignition ≤ 57)
    ∧ KomsiCommandKind.code .Ignition ≠ 10 :=
  C6_registry.1 .Ignition (by decide)

/-- C7 counterexample: with `force = true` on two identical default
snapshots and a logger supplied, `compare` hands the logger 18
notifications although the set of changed fields is empty — so "exactly
one notification per changed field" does not hold for every value of
`force`, as the claim states it. -/
theorem C7_counterexample :
    (VehicleState.compare VehicleState.new VehicleState.new true (some ())).logs.length = 18
    ∧ (changedFields VehicleState.new VehicleState.new).length = 0 := by
  constructor
  · rw [compare_logs_eq, emittedFields_true, optLogs_some, List.length_map]
    rfl
  · rw [changedFields_self]
    rfl

/-- C7 (amended): with a logger supplied the messages are exactly one per
emitted field — per changed field when `force` is false, and per tracked
field when `force` is true — in canonical field order, each message naming
the field and carrying the field's old value and then its new value;
without a logger nothing is logged. -/
theorem C7_logger_fidelity (a b : VehicleState) (force : Bool) :
    (VehicleState.compare a b force (some ())).logs =
      (emittedFields a b force).map (msgFor a b)
    ∧ (VehicleState.compare a b false (some ())).logs =
      (changedFields a b).map (msgFor a b)
    ∧ (VehicleState.compare a b force none).logs = [] := by
  refine ⟨?_, ?_, ?_⟩
  · rw [compare_logs_eq, optLogs_some]
  · rw [compare_logs_eq, emittedFields_false, optLogs_some]
  · rw [compare_logs_eq, optLogs_none]

/-- C8: the fourth-door-light and gear-selector fields are stored but never
diffed or encoded: snapshots that agree on all 18 tracked fields compare to
an empty buffer whatever the two state-only fields hold, and overwriting
those two fields in either snapshot never changes any `compare` output. -/
theorem C8_untracked_excluded :
    (∀ a b : VehicleState, (∀ f ∈ trackedFields, f.get a = f.get b) →
      ∀ l : Option Unit, (VehicleState.compare a b false l).buffer = [])
    ∧ (∀ (a b : VehicleState) (force : Bool) (l : Option Unit) (x y x' y' : Nat),
        VehicleState.compare (setUntracked a x y) (setUntracked b x' y') force l =
          VehicleState.compare a b force l) := by
  constructor
  · intro a b h l
    have hch : changedFields a b = [] :=
      List.filter_eq_nil_iff.mpr (fun f hf => by simp [h f hf])
    rw [compare_buffer_eq, emittedFields_false, hch]
    rfl
  · intro a b force l x y x' y'
    exact compare_congr _ a _ b force l (get_setUntracked a x y) (get_setUntracked b x' y')

/-- Witness for C8 at concrete inputs: the default snapshot against itself
with fourth-door light 5 and gear selector 3 yields an empty buffer. -/
theorem C8_untracked_excluded_witness :
    (VehicleState.compare VehicleState.new
      (setUntracked VehicleState.new 5 3) false none).buffer = [] :=
  C8_untracked_excluded.1 VehicleState.new (setUntracked VehicleState.new 5 3)
    (by decide) none

/-- C9: under `force = true` the returned bytes depend only on the `after`
snapshot: any two `before` snapshots give byte-identical buffers, equal to
the buffer of comparing `after` with itself under `force`. -/
theorem C9_force_after_only (a a' b : VehicleState) :
    (VehicleState.compare a b true none).buffer =
      (VehicleState.compare a' b true none).buffer
    ∧ (VehicleState.compare a b true none).buffer =
      (VehicleState.compare b b true none).buffer := by
  have h : ∀ x : VehicleState, (VehicleState.compare x b true none).buffer =
      commandBytes b trackedFields ++ [10] := by
    intro x
    rw [compare_buffer_eq, emittedFields_true]
    rfl
  exact ⟨(h a).trans (h a').symm, (h a).trans (h b).symm⟩

/-- C10: under `force = true` with a logger supplied, `compare` invokes the
logger exactly 18 times, once per tracked field in canonical order — also
for fields whose values agree, whose message then shows the identical old
and new value. -/
theorem C10_force_logging (a b : VehicleState) :
    (VehicleState.compare a b true (some ())).logs = trackedFields.map (msgFor a b)
    ∧ (VehicleState.compare a b true (some ())).logs.length = 18
    ∧ (∀ f : FieldSpec, f.get a = f.get b →
        msgFor a b f = f.name ++ (if f.wide then ":  " else ": ") ++
          toString (f.get b) ++ " -> " ++ toString (f.get b) ++ " ") := by
  have h : (VehicleState.compare a b true (some ())).logs =
      trackedFields.map (msgFor a b) := by
    rw [compare_logs_eq, emittedFields_true, optLogs_some]
  refine ⟨h, ?_, ?_⟩
  · rw [h, List.length_map]
    rfl
  · intro f hf
    rw [msgFor, hf]

example :
    (VehicleState.compare VehicleState.new
      ⟨1, 0, 0, 50, 0, 0, 0, 0, 0, 0, 0, 0, 0, 0, 0, 0, 0, 0, 0, 0⟩ false none).buffer =
    [65, 49, 121, 53, 48, 10] := by
  rw [compare_buffer_eq, emittedFields_false]
  simp [changedFields, trackedFields, commandBytes, cmdOf, VehicleState.new, decAscii,
    KomsiCommandKind.code]

/-- Witness for C10 at a concrete input: the ignition field of two default
snapshots is unchanged and its forced log message shows `0 -> 0`. -/
theorem C10_force_logging_witness :
    msgFor VehicleState.new VehicleState.new
        ⟨"ignition", .Ignition, fun s => s.ignition, false⟩ =
      "ignition" ++ ": " ++ toString (0 : Nat) ++ " -> " ++ toString (0 : Nat) ++ " " :=
  (C10_force_logging VehicleState.new VehicleState.new).2.2
    ⟨"ignition", .Ignition, fun s => s.ignition, false⟩ rfl
